import Mathlib

/-
Verification of the nmigen clock-domain-crossing primitive library
(src/nmigen/lib/cdc.py): MultiReg, ResetSynchronizer, PulseSynchronizer,
BusSynchronizer, ElasticBuffer and Gearbox.

Each primitive is a circuit generator: a pure function from parameters to a
structural netlist fragment.  The embedding below models, at the value level,
the parameter validation performed by each constructor, the shapes and reset
values of the registers each generator declares, the per-cycle update
functions of the pointer/counter registers, and the submodule structure of the
elaborated netlists.
-/

set_option linter.unusedVariables false

/-- Modelled from the spec: the signal-allocation API of the hardware DSL
(an external collaborator of this library, not under src/) sizes a register
from its value range.  `bitLenAux fuel n` is the bit length of `n` (the number
of halvings needed to reach zero, Python `int.bit_length`); the explicit
`fuel` argument bounds the recursion and `fuel = n` always suffices, since a
number's bit length never exceeds the number itself. -/
def bitLenAux : Nat → Nat → Nat
  | 0, _ => 0
  | fuel + 1, n => if n = 0 then 0 else bitLenAux fuel (n / 2) + 1

/-- Modelled from the spec: bit length of a natural number (see `bitLenAux`). -/
def bitLen (n : Nat) : Nat := bitLenAux n n

/-- Modelled from the spec: the DSL helper `log2_int(n, need_pow2=False)`,
which returns `(n - 1).bit_length()` and 0 for `n = 0`. -/
def log2_int (n : Nat) : Nat := if n = 0 then 0 else bitLen (n - 1)

/-- Modelled from the spec: the DSL helper `bits_for(n)` giving the number of
bits needed to hold the value `n`; for `n > 0` it is `log2_int(n + 1)` and for
`n = 0` it is one bit. -/
def bits_for (n : Nat) : Nat := if 0 < n then log2_int (n + 1) else log2_int n + 1

/-- Modelled from the spec: a DSL `Signal(max=m)` declaration allocates
`bits_for(m - 1)` bits (`max` is exclusive: the signal is sized to hold the
values `0 .. m-1`).  Assignments into the signal truncate modulo `2 ^ width`. -/
def signalBits (maxVal : Nat) : Nat := bits_for (maxVal - 1)

/-- Value-level semantics of `_incr(signal, modulo)` (src/nmigen/lib/cdc.py
lines 15-19) assigned back into the same register: for a register of `w` bits
currently holding `v`, the next value is `signal + 1` truncated to `w` bits
when `modulo == 2 ** len(signal)`, and `Mux(signal == modulo - 1, 0,
signal + 1)` truncated to `w` bits otherwise. -/
def incrNext (w modulo v : Nat) : Nat :=
  if modulo = 2 ^ w then (v + 1) % 2 ^ w
  else if v = modulo - 1 then 0 else (v + 1) % 2 ^ w

/-- A register declared by a generator: its name, reset value, `reset_less`
flag, and whether it carries the `no_retiming` attribute. -/
structure RegDecl where
  name : String
  reset : Nat
  resetLess : Bool
  noRetiming : Bool
  deriving DecidableEq

/-- The register chain declared by `MultiReg.__init__` (cdc.py lines 74-76):
`n` registers named `cdc0`, `cdc1`, ..., each with the given reset value and
`reset_less` flag and with `attrs={"no_retiming": True}`. -/
def multiRegRegs (n : Nat) (reset : Nat) (resetLess : Bool) : List RegDecl :=
  (List.range n).map fun k =>
    { name := "cdc" ++ toString k, reset := reset, resetLess := resetLess, noRetiming := true }

/-- `MultiReg.__init__` (cdc.py lines 67-76).  The `n` parameter is validated
before any register is declared; the Python `isinstance(n, int)` half of the
check is subsumed by typing the parameter as `Int`.  On success the declared
register chain is returned; on failure only the error message exists. -/
def MultiReg.init (n : Int) (reset : Nat) (resetLess : Bool) : Except String (List RegDecl) :=
  if n < 1 then
    Except.error ("n must be a positive integer, not \x27" ++ toString n ++ "\x27")
  else
    Except.ok (multiRegRegs n.toNat reset resetLess)

/-- A signal of the elaborated MultiReg netlist: the input `i`, the `k`-th
register of the chain, or the output `o`. -/
inductive MRSig where
  | input : MRSig
  | reg : Nat → MRSig
  | output : MRSig
  deriving DecidableEq

/-- A domain-tagged sequential assignment `m.d[domain] += dst.eq(src)`. -/
structure MRAssign where
  domain : String
  dst : MRSig
  src : MRSig
  deriving DecidableEq

/-- The structural netlist emitted by the generic `MultiReg.elaborate`:
the list of sequential assignments, and the signal combinationally driven
onto `o`. -/
structure MRNetlist where
  seqs : List MRAssign
  combOut : MRSig
  deriving DecidableEq

/-- The generic body of `MultiReg.elaborate` (cdc.py lines 82-86):
`for i, o in zip((self.i, *self._regs), self._regs): m.d[odomain] += o.eq(i)`
followed by `m.d.comb += self.o.eq(self._regs[-1])`.  The zip pairs register
`k` with source `i` for `k = 0` and with register `k - 1` otherwise. -/
def multiRegGeneric (n : Nat) (odomain : String) : MRNetlist :=
  { seqs := (List.range n).map fun k =>
      { domain := odomain, dst := MRSig.reg k,
        src := if k = 0 then MRSig.input else MRSig.reg (k - 1) },
    combOut := MRSig.reg (n - 1) }

/-- `MultiReg.elaborate` (cdc.py lines 78-86): if the platform defines
`get_multi_reg` the platform-provided netlist is returned, otherwise the
generic register chain is emitted. -/
def MultiReg.elaborate (getMultiReg : Option MRNetlist) (n : Nat) (odomain : String) : MRNetlist :=
  match getMultiReg with
  | some overridden => overridden
  | none => multiRegGeneric n odomain

/-- The register chain declared by `ResetSynchronizer.__init__` (cdc.py lines
114-116): registers named `arst0`, ..., reset to 1, with `no_retiming`. -/
def resetSyncRegs (n : Nat) : List RegDecl :=
  (List.range n).map fun k =>
    { name := "arst" ++ toString k, reset := 1, resetLess := false, noRetiming := true }

/-- `ResetSynchronizer.__init__` (cdc.py lines 108-116): validates `n`
before declaring the register chain. -/
def ResetSynchronizer.init (n : Int) : Except String (List RegDecl) :=
  if n < 1 then
    Except.error ("n must be a positive integer, not \x27" ++ toString n ++ "\x27")
  else
    Except.ok (resetSyncRegs n.toNat)

/-- `PulseSynchronizer.__init__` (cdc.py lines 153-161): validates
`sync_stages` before allocating the `i`/`o` signals. -/
def PulseSynchronizer.init (sync_stages : Int) : Except String Nat :=
  if sync_stages < 1 then
    Except.error ("sync_stages must be a positive integer, not \x27"
      ++ toString sync_stages ++ "\x27")
  else
    Except.ok sync_stages.toNat

/-- The validated parameters of a `BusSynchronizer`. -/
structure BusSyncCfg where
  width : Nat
  sync_stages : Nat
  timeout : Nat
  deriving DecidableEq

/-- `BusSynchronizer.__init__` (cdc.py lines 206-220): validates `width`,
then `sync_stages`, then `timeout`, before allocating any signal. -/
def BusSynchronizer.init (width sync_stages timeout : Int) : Except String BusSyncCfg :=
  if width < 1 then
    Except.error ("width must be a positive integer, not \x27" ++ toString width ++ "\x27")
  else if sync_stages < 2 then
    Except.error ("sync_stages must be an integer > 1, not \x27"
      ++ toString sync_stages ++ "\x27")
  else if timeout < 0 then
    Except.error ("timeout must be a non-negative integer, not \x27"
      ++ toString timeout ++ "\x27")
  else
    Except.ok { width := width.toNat, sync_stages := sync_stages.toNat, timeout := timeout.toNat }

/-- A `MultiReg` submodule instantiated by `BusSynchronizer.elaborate`, with
the signals it connects and its stage count. -/
structure MultiRegInst where
  src : String
  dst : String
  odomain : String
  n : Nat
  deriving DecidableEq

/-- A `PulseSynchronizer` submodule instantiated by `BusSynchronizer.elaborate`,
with the signal driven into its `i`, the signal its `o` drives, its two clock
domains, and its stage count. -/
structure PulseSyncInst where
  name : String
  src : String
  dst : String
  idomain : String
  odomain : String
  stages : Nat
  deriving DecidableEq

/-- The submodule structure of the netlist emitted by
`BusSynchronizer.elaborate`. -/
structure BusSyncNetlist where
  multiRegs : List MultiRegInst
  pulseSyncs : List PulseSyncInst
  hasTimeout : Bool
  deriving DecidableEq

/-- The submodule structure of `BusSynchronizer.elaborate` (cdc.py lines
222-264).  For `width == 1` (lines 224-226) the module contains exactly one
`MultiReg` from `i` to `o` with `n = sync_stages` in `odomain` and returns at
once, so no pulse synchronizer and no timeout logic exists.  Otherwise
`sync_io` is a `PulseSynchronizer(idomain, odomain, sync_stages + 1)` carrying
`req` to `ack_o` (lines 233-234, 249-250), `sync_oi` is a
`PulseSynchronizer(odomain, idomain, sync_stages)` carrying `ack_o` back to
`ack_i` (lines 235-236, 251-252), `sync_data` is a
`MultiReg(buf_i, buf_o, odomain, n=sync_stages)` (lines 259-260), and the
countdown logic exists exactly when `timeout != 0` (line 238). -/
def BusSynchronizer.elaborate (width sync_stages timeout : Nat)
    (idomain odomain : String) : BusSyncNetlist :=
  if width = 1 then
    { multiRegs := [{ src := "i", dst := "o", odomain := odomain, n := sync_stages }],
      pulseSyncs := [],
      hasTimeout := false }
  else
    { multiRegs := [{ src := "buf_i", dst := "buf_o", odomain := odomain, n := sync_stages }],
      pulseSyncs :=
        [{ name := "sync_io", src := "req", dst := "ack_o",
           idomain := idomain, odomain := odomain, stages := sync_stages + 1 },
         { name := "sync_oi", src := "ack_o", dst := "ack_i",
           idomain := odomain, odomain := idomain, stages := sync_stages }],
      hasTimeout := timeout != 0 }

/-- Spec-side definition for the width-1 fast path, following the spec's
words: a bare `MultiReg` from `i` to `o` with `n = sync_stages` in `odomain`;
no handshake, no pulse synchronizers, no timeout logic. -/
def specBareMultiReg (sync_stages : Nat) (odomain : String) : BusSyncNetlist :=
  { multiRegs := [{ src := "i", dst := "o", odomain := odomain, n := sync_stages }],
    pulseSyncs := [],
    hasTimeout := false }

/-- The width of the `countdown` register of `BusSynchronizer.elaborate`
(cdc.py line 239): `Signal(max=self.timeout, ...)`. -/
def busSyncCountdownWidth (timeout : Nat) : Nat := signalBits timeout

/-- The value actually held by the `countdown` register at reset (cdc.py line
239 declares `reset=self.timeout`): the declared reset value truncated to the
register's width. -/
def busSyncCountdownReset (timeout : Nat) : Nat :=
  timeout % 2 ^ busSyncCountdownWidth timeout

/-- The idomain-clocked state of `BusSynchronizer.elaborate` relevant to the
request/watchdog logic: the `start` register (reset 1, cdc.py line 245) and
the `countdown` register. -/
structure BusSyncIState where
  start : Bool
  countdown : Nat
  deriving DecidableEq

/-- The combinational `req` equation (cdc.py line 248):
`req.eq(start | ack_i | (self.timeout != 0 and countdown == 0))`.  The
conjunction is Python-level: when `timeout` is 0 the term is the constant
false, otherwise it is the comparison `countdown == 0`. -/
def busSyncReq (timeout : Nat) (s : BusSyncIState) (ack : Bool) : Bool :=
  s.start || ack || (decide (timeout ≠ 0) && decide (s.countdown = 0))

/-- The next value of `countdown` after one idomain cycle (cdc.py lines
238-243): reloaded with `self.timeout` (truncated to the register width) when
`ack_i | req`, else decremented by `countdown.bool()` (1 when nonzero, 0 when
zero). -/
def busSyncCountdownNext (timeout : Nat) (s : BusSyncIState) (ack : Bool) : Nat :=
  if ack || busSyncReq timeout s ack then
    timeout % 2 ^ busSyncCountdownWidth timeout
  else
    s.countdown - (if s.countdown ≠ 0 then 1 else 0)

/-- One idomain cycle of the request/watchdog state (cdc.py lines 238-248):
`start` is cleared (line 246) and `countdown` updates per
`busSyncCountdownNext`. -/
def busSyncStep (timeout : Nat) (s : BusSyncIState) (ack : Bool) : BusSyncIState :=
  { start := false, countdown := busSyncCountdownNext timeout s ack }

/-- The idomain state reached after `k` cycles from reset when the
acknowledgment `ack_i` never arrives. -/
def busSyncNoAck (timeout k : Nat) : BusSyncIState :=
  (fun s => busSyncStep timeout s false)^[k]
    { start := true, countdown := busSyncCountdownReset timeout }

/-- `ElasticBuffer.__init__` (cdc.py lines 290-301): validates `width`, then
`depth`, before allocating the `i`/`o` signals. -/
def ElasticBuffer.init (width depth : Int) : Except String (Nat × Nat) :=
  if width < 1 then
    Except.error ("width must be a positive integer, not \x27" ++ toString width ++ "\x27")
  else if depth ≤ 1 then
    Except.error ("depth must be an integer > 1, not \x27" ++ toString depth ++ "\x27")
  else
    Except.ok (width.toNat, depth.toNat)

/-- The pointer declarations of `ElasticBuffer.elaborate` (cdc.py lines
306-309): the write pointer `wptr = Signal(max=depth, reset=depth // 2)` is
clocked by `idomain`, the read pointer `rptr = Signal(max=depth)` (reset 0) is
clocked by `odomain`. -/
structure ElasticPtrs where
  wDomain : String
  rDomain : String
  wReset : Nat
  rReset : Nat
  deriving DecidableEq

/-- The pointer declarations of `ElasticBuffer.elaborate` (cdc.py lines
306-309); see `ElasticPtrs`. -/
def ElasticBuffer.pointers (depth : Nat) (idomain odomain : String) : ElasticPtrs :=
  { wDomain := idomain, rDomain := odomain, wReset := depth / 2, rReset := 0 }

/-- The per-cycle update of either ElasticBuffer pointer (cdc.py lines
308-309): `ptr.eq(_incr(ptr, self.depth))` on a `Signal(max=depth)`, i.e. a
register of `signalBits depth` bits. -/
def elasticPtrNext (depth v : Nat) : Nat := incrNext (signalBits depth) depth v

/-- The storage-size doubling loop of `Gearbox.__init__` (cdc.py lines
368-371): `while storagesize // width < 4: storagesize *= 2`.  The explicit
iteration bound makes the recursion structural; starting from any
`s ≥ 1` the loop exits after at most `bitLen (4 * width)` doublings, so a
bound of `4 * width + 4` iterations never alters the result. -/
def doubleWhile : Nat → Nat → Nat → Nat
  | 0, _, s => s
  | fuel + 1, w, s => if s / w < 4 then doubleWhile fuel w (2 * s) else s

/-- The `_storagesize` computed by `Gearbox.__init__` (cdc.py lines 367-373):
`lcm(iwidth, owidth) = iwidth * owidth // gcd(iwidth, owidth)`, doubled while
it holds fewer than 4 input chunks, then doubled while it holds fewer than 4
output chunks. -/
def gearboxStoragesize (iwidth owidth : Nat) : Nat :=
  doubleWhile (4 * owidth + 4) owidth
    (doubleWhile (4 * iwidth + 4) iwidth (iwidth * owidth / Nat.gcd iwidth owidth))

/-- `self._ichunks = storagesize // self.iwidth` (cdc.py line 374). -/
def gearboxIchunks (iwidth owidth : Nat) : Nat := gearboxStoragesize iwidth owidth / iwidth

/-- `self._ochunks = storagesize // self.owidth` (cdc.py line 375). -/
def gearboxOchunks (iwidth owidth : Nat) : Nat := gearboxStoragesize iwidth owidth / owidth

/-- The validated configuration computed by `Gearbox.__init__`. -/
structure GearboxCfg where
  iwidth : Nat
  owidth : Nat
  storagesize : Nat
  ichunks : Nat
  ochunks : Nat
  deriving DecidableEq

/-- `Gearbox.__init__` (cdc.py lines 354-377): validates `iwidth`, then
`owidth`, before allocating the `i`/`o` signals and computing the storage
geometry. -/
def Gearbox.init (iwidth owidth : Int) : Except String GearboxCfg :=
  if iwidth < 1 then
    Except.error ("iwidth must be a positive integer, not \x27" ++ toString iwidth ++ "\x27")
  else if owidth < 1 then
    Except.error ("owidth must be a positive integer, not \x27" ++ toString owidth ++ "\x27")
  else
    Except.ok { iwidth := iwidth.toNat, owidth := owidth.toNat,
                storagesize := gearboxStoragesize iwidth.toNat owidth.toNat,
                ichunks := gearboxIchunks iwidth.toNat owidth.toNat,
                ochunks := gearboxOchunks iwidth.toNat owidth.toNat }

/-- `i_faster = self._ichunks > self._ochunks` (cdc.py line 383). -/
def gearboxIFaster (iwidth owidth : Nat) : Bool :=
  decide (gearboxOchunks iwidth owidth < gearboxIchunks iwidth owidth)

/-- The reset value of `iptr` (cdc.py line 384):
`Signal(max=self._ichunks - 1, reset=(self._ichunks // 2 if i_faster else 0))`. -/
def gearboxIptrReset (iwidth owidth : Nat) : Nat :=
  if gearboxIFaster iwidth owidth then gearboxIchunks iwidth owidth / 2 else 0

/-- The reset value of `optr` (cdc.py line 385):
`Signal(max=self._ochunks - 1, reset=(0 if i_faster else self._ochunks // 2))`. -/
def gearboxOptrReset (iwidth owidth : Nat) : Nat :=
  if gearboxIFaster iwidth owidth then 0 else gearboxOchunks iwidth owidth / 2

/-- The width of `iptr` (cdc.py line 384): `Signal(max=self._ichunks - 1)`
allocates `bits_for(self._ichunks - 2)` bits. -/
def gearboxIptrBits (iwidth owidth : Nat) : Nat :=
  signalBits (gearboxIchunks iwidth owidth - 1)

/-- The per-input-cycle update of `iptr` (cdc.py line 387):
`m.d[self.idomain] += iptr.eq(_incr(iptr, self._storagesize))` — note the
modulo passed to `_incr` is `self._storagesize`, not `self._ichunks`. -/
def gearboxIptrNext (iwidth owidth v : Nat) : Nat :=
  incrNext (gearboxIptrBits iwidth owidth) (gearboxStoragesize iwidth owidth) v

theorem lt_two_pow_bits_for (n : Nat) : n < 2 ^ bits_for n := by
  have aux : ∀ fuel m : Nat, m ≤ fuel → m < 2 ^ bitLenAux fuel m := by
    intro fuel
    induction fuel with
    | zero =>
      intro m hm
      have hm0 : m = 0 := by omega
      subst hm0
      simp [bitLenAux]
    | succ f ih =>
      intro m hm
      rcases Nat.eq_zero_or_pos m with h0 | h0
      · subst h0
        simp [bitLenAux]
      · have hne : ¬ m = 0 := by omega
        have hdiv : m / 2 ≤ f := by omega
        have hrec := ih (m / 2) hdiv
        have hunfold : bitLenAux (f + 1) m = bitLenAux f (m / 2) + 1 := by
          simp [bitLenAux, hne]
        rw [hunfold, pow_succ]
        omega
  rcases Nat.eq_zero_or_pos n with h | h
  · subst h
    simp [bits_for, log2_int]
  · have h1 : bits_for n = bitLen n := by
      have hn1 : ¬ n + 1 = 0 := by omega
      simp [bits_for, log2_int, h, hn1]
    rw [h1]
    exact aux n n le_rfl

/-- Claim C1 (code bug): the spec says each Gearbox pointer wraps modulo its
own chunk count so that it always selects a valid chunk slot, but
`Gearbox.elaborate` updates `iptr` with `_incr(iptr, self._storagesize)` on a
signal of `bits_for(_ichunks - 2)` bits.  For `Gearbox(iwidth=2, owidth=3)`
the storage geometry is `_storagesize = 12`, `_ichunks = 6`, `iptr` is a
3-bit signal resetting to 3, and the `Mux(iptr == 11, ...)` wrap point is
unreachable: three input-domain cycles after reset `iptr` holds 6, which is
not a valid chunk slot (the input `Switch` has cases 0..5 only), and the
pointer in fact wraps at 8 (`iptr = 7` steps to 0), not at `_ichunks = 6`. -/
theorem gearbox_iptr_escapes_chunk_range :
    gearboxIchunks 2 3 = 6 ∧
    gearboxStoragesize 2 3 = 12 ∧
    gearboxIptrBits 2 3 = 3 ∧
    gearboxIptrReset 2 3 = 3 ∧
    (fun v => gearboxIptrNext 2 3 v)^[3] (gearboxIptrReset 2 3) = 6 ∧
    ¬ ((fun v => gearboxIptrNext 2 3 v)^[3] (gearboxIptrReset 2 3) < gearboxIchunks 2 3) ∧
    gearboxIptrNext 2 3 5 = 6 ∧
    gearboxIptrNext 2 3 7 = 0 := by decide

/-- Claim C2 (code bug): `BusSynchronizer.elaborate` declares
`countdown = Signal(max=self.timeout, reset=self.timeout)`; since `max` is
exclusive the register gets `bits_for(timeout - 1)` bits, which cannot hold
the value `timeout` when `timeout` is a power of two.  For the allowed
configuration `timeout = 128` the countdown register is 7 bits wide, so its
reset value and every reload of `self.timeout` truncate to 0 instead of 128
(the spec default `timeout = 127` happens to fit). -/
theorem busSync_countdown_truncated_at_timeout_128 :
    busSyncCountdownWidth 128 = 7 ∧
    busSyncCountdownReset 128 = 0 ∧
    busSyncCountdownReset 128 ≠ 128 ∧
    busSyncCountdownNext 128 { start := true, countdown := 5 } false = 0 ∧
    busSyncCountdownWidth 127 = 7 ∧
    busSyncCountdownReset 127 = 127 := by decide

/-- Claim C3 counterexample: for `Gearbox(iwidth=4, owidth=2)` the input side
has the smaller chunk count (`_ichunks = 4 < _ochunks = 8`), yet its pointer
resets to 0, not to its midpoint `_ichunks // 2 = 2`, while the larger-count
output side resets to its midpoint 4 — the opposite of the claim. -/
theorem gearbox_reset_smaller_side_at_zero :
    gearboxIchunks 4 2 = 4 ∧
    gearboxOchunks 4 2 = 8 ∧
    gearboxIchunks 4 2 < gearboxOchunks 4 2 ∧
    gearboxIptrReset 4 2 = 0 ∧
    gearboxIptrReset 4 2 ≠ gearboxIchunks 4 2 / 2 ∧
    gearboxOptrReset 4 2 = 4 ∧
    gearboxOptrReset 4 2 ≠ 0 := by decide

/-- Claim C3 as amended: in `Gearbox.elaborate`, the side whose chunk count is
larger (the faster-ticking side, `i_faster = _ichunks > _ochunks`) has its
pointer reset to the midpoint of its chunk range (chunk count // 2) while the
other side's pointer resets to 0; when the chunk counts are equal the output
pointer gets the midpoint and the input pointer resets to 0. -/
theorem gearbox_reset_centering_amended (iwidth owidth : Nat)
    (hi : 1 ≤ iwidth) (ho : 1 ≤ owidth) :
    (gearboxOchunks iwidth owidth < gearboxIchunks iwidth owidth →
      gearboxIptrReset iwidth owidth = gearboxIchunks iwidth owidth / 2 ∧
      gearboxOptrReset iwidth owidth = 0) ∧
    (gearboxIchunks iwidth owidth ≤ gearboxOchunks iwidth owidth →
      gearboxIptrReset iwidth owidth = 0 ∧
      gearboxOptrReset iwidth owidth = gearboxOchunks iwidth owidth / 2) := by
  constructor
  · intro h
    simp [gearboxIptrReset, gearboxOptrReset, gearboxIFaster, h]
  · intro h
    have h2 : ¬ (gearboxOchunks iwidth owidth < gearboxIchunks iwidth owidth) :=
      Nat.not_lt.mpr h
    simp [gearboxIptrReset, gearboxOptrReset, gearboxIFaster, h2]

/-- Witness for `gearbox_reset_centering_amended` at `Gearbox(2, 3)`, where
`_ichunks = 6 > _ochunks = 4`. -/
theorem gearbox_reset_centering_amended_witness :
    gearboxIptrReset 2 3 = gearboxIchunks 2 3 / 2 ∧ gearboxOptrReset 2 3 = 0 :=
  (gearbox_reset_centering_amended 2 3 (by decide) (by decide)).1 (by decide)

/-- Claim C4 counterexample: for `Gearbox(iwidth=8, owidth=2)` the computed
`_storagesize` is 32 bits, not 16: the ≥4-input-chunk rule requires
`storagesize // 8 >= 4`, i.e. at least 32. -/
theorem gearbox_storagesize_8_2_not_16 :
    gearboxStoragesize 8 2 = 32 ∧ gearboxStoragesize 8 2 ≠ 16 := by decide

/-- Claim C4 as amended: for `Gearbox(iwidth=8, owidth=2)` the storage buffer
is 32 bits, obtained from `lcm(8, 2) = 8` doubled until it holds at least 4
whole input chunks (`32 // 8 = 4`); the ≥4-output-chunk condition is then
already satisfied (`32 // 2 = 16`). -/
theorem gearbox_storagesize_8_2_eq_32 :
    gearboxStoragesize 8 2 = 32 ∧ gearboxIchunks 8 2 = 4 ∧ gearboxOchunks 8 2 = 16 := by decide

/-- Claim C5: for every BusSynchronizer configuration with `width > 1` (and
valid `sync_stages >= 2`), the elaborated circuit crosses the request `req`
from `idomain` to `odomain` through the `sync_io` PulseSynchronizer with
exactly `sync_stages + 1` stages, and echoes the acknowledgment `ack_o` back
from `odomain` to `idomain` as `ack_i` through the `sync_oi` PulseSynchronizer
with exactly `sync_stages` stages. -/
theorem busSync_pulse_sync_stage_counts (width sync_stages timeout : Nat)
    (hw : 1 < width) (hs : 2 ≤ sync_stages) (idom odom : String) :
    (BusSynchronizer.elaborate width sync_stages timeout idom odom).pulseSyncs =
      [{ name := "sync_io", src := "req", dst := "ack_o",
         idomain := idom, odomain := odom, stages := sync_stages + 1 },
       { name := "sync_oi", src := "ack_o", dst := "ack_i",
         idomain := odom, odomain := idom, stages := sync_stages }] := by
  have h1 : ¬ width = 1 := by omega
  simp [BusSynchronizer.elaborate, h1]

/-- Witness for `busSync_pulse_sync_stage_counts` at width 2, sync_stages 2,
the default timeout 127. -/
theorem busSync_pulse_sync_stage_counts_witness :
    (BusSynchronizer.elaborate 2 2 127 "idom" "odom").pulseSyncs =
      [{ name := "sync_io", src := "req", dst := "ack_o",
         idomain := "idom", odomain := "odom", stages := 2 + 1 },
       { name := "sync_oi", src := "ack_o", dst := "ack_i",
         idomain := "odom", odomain := "idom", stages := 2 }] :=
  busSync_pulse_sync_stage_counts 2 2 127 (by decide) (by decide) "idom" "odom"

/-- Claim C6: for every `sync_stages >= 2`, a width-1 BusSynchronizer
elaborates to exactly the netlist of a bare MultiReg from `i` to `o` with
`n = sync_stages` in `odomain`: no pulse synchronizers and no timeout logic
are instantiated, whatever the timeout parameter. -/
theorem busSync_width1_is_bare_multireg (sync_stages timeout : Nat)
    (hs : 2 ≤ sync_stages) (idom odom : String) :
    BusSynchronizer.elaborate 1 sync_stages timeout idom odom =
      specBareMultiReg sync_stages odom := rfl

/-- Witness for `busSync_width1_is_bare_multireg` at sync_stages 2. -/
theorem busSync_width1_is_bare_multireg_witness :
    BusSynchronizer.elaborate 1 2 127 "idom" "odom" = specBareMultiReg 2 "odom" :=
  busSync_width1_is_bare_multireg 2 127 (by decide) "idom" "odom"

/-- Claim C7: for every `n >= 1`, a MultiReg elaborated on a platform without
a `get_multi_reg` override produces exactly `n` storage registers, chained so
that stage `k`'s input is stage `k - 1`'s output (stage 0's input is `i`),
with `o` combinationally equal to the last stage, every register carrying the
`no_retiming` attribute, and every sequential assignment clocked by
`odomain`. -/
theorem multireg_chain_structure (n : Nat) (hn : 1 ≤ n) (odom : String)
    (reset : Nat) (resetLess : Bool) :
    (MultiReg.elaborate none n odom).seqs.length = n ∧
    (∀ k, k < n → (MultiReg.elaborate none n odom).seqs[k]? =
      some { domain := odom, dst := MRSig.reg k,
             src := if k = 0 then MRSig.input else MRSig.reg (k - 1) }) ∧
    (∀ a ∈ (MultiReg.elaborate none n odom).seqs, a.domain = odom) ∧
    (MultiReg.elaborate none n odom).combOut = MRSig.reg (n - 1) ∧
    (multiRegRegs n reset resetLess).length = n ∧
    (∀ r ∈ multiRegRegs n reset resetLess, r.noRetiming = true) := by
  refine ⟨?_, ?_, ?_, rfl, ?_, ?_⟩
  · simp [MultiReg.elaborate, multiRegGeneric]
  · intro k hk
    simp [MultiReg.elaborate, multiRegGeneric, List.getElem?_map, List.getElem?_range, hk]
  · intro a ha
    simp [MultiReg.elaborate, multiRegGeneric, List.mem_map, List.mem_range] at ha
    obtain ⟨k, hk, rfl⟩ := ha
    rfl
  · simp [multiRegRegs]
  · intro r hr
    simp [multiRegRegs, List.mem_map, List.mem_range] at hr
    obtain ⟨k, hk, rfl⟩ := hr
    rfl

/-- Witness for `multireg_chain_structure` at `n = 3`. -/
theorem multireg_chain_structure_witness :
    (MultiReg.elaborate none 3 "sync").seqs.length = 3 ∧
    (MultiReg.elaborate none 3 "sync").combOut = MRSig.reg 2 :=
  ⟨(multireg_chain_structure 3 (by decide) "sync" 0 true).1,
   (multireg_chain_structure 3 (by decide) "sync" 0 true).2.2.2.1⟩

/-- Claim C8: each constructor validates its parameters before allocating any
signal (in the embedding, the error branch of `init` returns without building
a configuration, so no partially constructed generator exists), and every
out-of-domain value yields a configuration error naming the offending
parameter and quoting the value received.  Each conjunct exercises one
parameter with all other parameters valid; Python's `isinstance(..., int)`
checks are subsumed by typing the parameters as `Int`. -/
theorem constructor_validation_errors
    (mrReset : Nat) (mrRL : Bool)
    (n ns ps bw bs bt ew ed gi go : Int)
    (hn : n < 1) (hns : ns < 1) (hps : ps < 1)
    (hbw : bw < 1) (hbs : bs < 2) (hbt : bt < 0)
    (hew : ew < 1) (hed : ed ≤ 1) (hgi : gi < 1) (hgo : go < 1) :
    MultiReg.init n mrReset mrRL =
      Except.error ("n must be a positive integer, not \x27" ++ toString n ++ "\x27") ∧
    ResetSynchronizer.init ns =
      Except.error ("n must be a positive integer, not \x27" ++ toString ns ++ "\x27") ∧
    PulseSynchronizer.init ps =
      Except.error ("sync_stages must be a positive integer, not \x27"
        ++ toString ps ++ "\x27") ∧
    BusSynchronizer.init bw 2 0 =
      Except.error ("width must be a positive integer, not \x27" ++ toString bw ++ "\x27") ∧
    BusSynchronizer.init 2 bs 0 =
      Except.error ("sync_stages must be an integer > 1, not \x27" ++ toString bs ++ "\x27") ∧
    BusSynchronizer.init 2 2 bt =
      Except.error ("timeout must be a non-negative integer, not \x27"
        ++ toString bt ++ "\x27") ∧
    ElasticBuffer.init ew 2 =
      Except.error ("width must be a positive integer, not \x27" ++ toString ew ++ "\x27") ∧
    ElasticBuffer.init 2 ed =
      Except.error ("depth must be an integer > 1, not \x27" ++ toString ed ++ "\x27") ∧
    Gearbox.init gi 1 =
      Except.error ("iwidth must be a positive integer, not \x27" ++ toString gi ++ "\x27") ∧
    Gearbox.init 1 go =
      Except.error ("owidth must be a positive integer, not \x27" ++ toString go ++ "\x27") := by
  have v21 : ¬ ((2 : Int) < 1) := by norm_num
  have v22 : ¬ ((2 : Int) < 2) := by norm_num
  have v11 : ¬ ((1 : Int) < 1) := by norm_num
  refine ⟨?_, ?_, ?_, ?_, ?_, ?_, ?_, ?_, ?_, ?_⟩ <;>
    simp [MultiReg.init, ResetSynchronizer.init, PulseSynchronizer.init,
      BusSynchronizer.init, ElasticBuffer.init, Gearbox.init,
      hn, hns, hps, hbw, hbs, hbt, hew, hed, hgi, hgo, v21, v22, v11]

/-- Witness for `constructor_validation_errors`: `MultiReg(n=0)` (with the
other constructors probed at `n=0`, `sync_stages=0`, `width=0`,
`sync_stages=1`, `timeout=-1`, `depth=1`, `iwidth=0`, `owidth=0`). -/
theorem constructor_validation_errors_witness :
    MultiReg.init 0 0 true =
      Except.error ("n must be a positive integer, not \x27" ++ toString (0 : Int) ++ "\x27") :=
  (constructor_validation_errors 0 true 0 0 0 0 1 (-1) 0 1 0 0
    (by decide) (by decide) (by decide) (by decide) (by decide) (by decide)
    (by decide) (by decide) (by decide) (by decide)).1

/-- Claim C9: for every valid ElasticBuffer depth, the write pointer is
clocked by `idomain` and resets to `depth // 2`, the read pointer is clocked
by `odomain` and resets to 0, and each pointer's per-cycle update
`_incr(ptr, depth)` on its `Signal(max=depth)` register is exactly increment
modulo `depth`, so a pointer in `[0, depth)` stays in `[0, depth)`. -/
theorem elastic_pointer_wrap_and_resets (depth : Nat) (hd : 2 ≤ depth)
    (idom odom : String) :
    (ElasticBuffer.pointers depth idom odom).wDomain = idom ∧
    (ElasticBuffer.pointers depth idom odom).rDomain = odom ∧
    (ElasticBuffer.pointers depth idom odom).wReset = depth / 2 ∧
    (ElasticBuffer.pointers depth idom odom).rReset = 0 ∧
    (ElasticBuffer.pointers depth idom odom).wReset < depth ∧
    ∀ p, p < depth →
      elasticPtrNext depth p = (p + 1) % depth ∧ elasticPtrNext depth p < depth := by
  refine ⟨rfl, rfl, rfl, rfl, ?_, ?_⟩
  · show depth / 2 < depth
    omega
  · intro p hp
    have hfit : depth - 1 < 2 ^ signalBits depth := lt_two_pow_bits_for (depth - 1)
    have hnext : elasticPtrNext depth p = (p + 1) % depth := by
      unfold elasticPtrNext incrNext
      by_cases hpow : depth = 2 ^ signalBits depth
      · rw [if_pos hpow, ← hpow]
      · rw [if_neg hpow]
        by_cases hlast : p = depth - 1
        · rw [if_pos hlast]
          have h1 : p + 1 = depth := by omega
          rw [h1, Nat.mod_self]
        · rw [if_neg hlast]
          have h2 : p + 1 < 2 ^ signalBits depth := by omega
          have h1 : p + 1 < depth := by omega
          rw [Nat.mod_eq_of_lt h2, Nat.mod_eq_of_lt h1]
    refine ⟨hnext, ?_⟩
    rw [hnext]
    exact Nat.mod_lt _ (by omega)

/-- Witness for `elastic_pointer_wrap_and_resets` at `depth = 6` (a depth
that is not a power of two, exercising the `Mux` branch of `_incr`). -/
theorem elastic_pointer_wrap_and_resets_witness :
    (ElasticBuffer.pointers 6 "write" "read").wReset = 6 / 2 ∧
    elasticPtrNext 6 5 = (5 + 1) % 6 ∧
    elasticPtrNext 6 5 < 6 :=
  ⟨(elastic_pointer_wrap_and_resets 6 (by decide) "write" "read").2.2.1,
   ((elastic_pointer_wrap_and_resets 6 (by decide) "write" "read").2.2.2.2.2 5 (by decide)).1,
   ((elastic_pointer_wrap_and_resets 6 (by decide) "write" "read").2.2.2.2.2 5 (by decide)).2⟩

/-- Claim C10 counterexample: with `timeout = 3` and `ack_i` never asserted,
the countdown expires at idomain cycle 4 and `req` is asserted there, but on
the very next cycle `req` is deasserted again although no acknowledgment ever
arrived — the `ack_i | req` reload branch sets the countdown back to
`timeout`, so `req` is not held asserted until an acknowledgment arrives. -/
theorem busSync_req_not_held_after_expiry :
    (busSyncNoAck 3 4).countdown = 0 ∧
    busSyncReq 3 (busSyncNoAck 3 4) false = true ∧
    busSyncReq 3 (busSyncNoAck 3 5) false = false := by decide

/-- Claim C10 as amended: with `timeout > 0`, on every idomain cycle where
neither `ack_i` nor `req` is asserted the countdown decreases by exactly one
when nonzero and stays at zero when zero (the `countdown - countdown.bool()`
saturating decrement); and once the countdown reaches zero (start pulse past,
no acknowledgment) `req` is asserted for that cycle via the `countdown == 0`
term, which itself triggers the `ack_i | req` branch and reloads the countdown
to `timeout` (truncated to the register width) — a recurring one-cycle
re-request rather than `req` held until an acknowledgment arrives. -/
theorem busSync_watchdog_saturation_and_repulse (timeout : Nat) (s : BusSyncIState)
    (ht : timeout ≠ 0) :
    (busSyncReq timeout s false = false →
      (s.countdown ≠ 0 → busSyncCountdownNext timeout s false = s.countdown - 1) ∧
      (s.countdown = 0 → busSyncCountdownNext timeout s false = 0)) ∧
    (s.start = false → s.countdown = 0 →
      busSyncReq timeout s false = true ∧
      (busSyncStep timeout s false).countdown =
        timeout % 2 ^ busSyncCountdownWidth timeout) := by
  constructor
  · intro hreq
    constructor
    · intro hc
      simp [busSyncCountdownNext, hreq, hc]
    · intro hc
      exfalso
      simp [busSyncReq, ht, hc] at hreq
  · intro hstart hc
    have hreq : busSyncReq timeout s false = true := by
      simp [busSyncReq, ht, hc]
    refine ⟨hreq, ?_⟩
    simp [busSyncStep, busSyncCountdownNext, hreq]

/-- Witness for `busSync_watchdog_saturation_and_repulse` at `timeout = 3`
with the countdown expired. -/
theorem busSync_watchdog_saturation_and_repulse_witness :
    busSyncReq 3 { start := false, countdown := 0 } false = true ∧
    (busSyncStep 3 { start := false, countdown := 0 } false).countdown =
      3 % 2 ^ busSyncCountdownWidth 3 :=
  (busSync_watchdog_saturation_and_repulse 3 { start := false, countdown := 0 }
    (by decide)).2 rfl rfl
